import Mathlib

/-!
A shallow embedding of the `stormbird_setup` configuration layer
(`src/interfaces/stormbird_setup/src/stormbird_setup/`), the pydantic model
family that builds, validates and serializes the JSON setup documents handed
to the external stormbird engine.

The embedding mirrors, per pydantic model:
  * the structure of the model's fields,
  * `validate` : the deserialization pipeline (`mode='before'` model
    validators, followed by per-field validation with `extra='forbid'`,
    required-field checks and defaults), as a function `Json → Except String M`,
  * `ser` : the JSON projection (`model_dump_json(exclude_none=True)` /
    custom `model_serializer`s), as a function `M → Json` (or
    `M → Except String Json` where the serializer can raise).

JSON numbers are modelled as rationals: the layer only moves numbers between
documents and fields, it never computes with them.
-/

namespace Stormbird

/-- JSON documents, as produced/consumed by the setup layer. -/
inductive Json where
  | null : Json
  | bool (b : Bool) : Json
  | num (q : Rat) : Json
  | str (s : String) : Json
  | arr (xs : List Json) : Json
  | obj (fs : List (String × Json)) : Json

/-- First-match lookup of a key in a JSON object's field list. -/
def jlookup (k : String) : List (String × Json) → Option Json
  | [] => none
  | (k', v) :: rest => if k' = k then some v else jlookup k rest

/-- Whether a key is present in a JSON object's field list
(Python's `key in data`). -/
def hasKey (k : String) (fs : List (String × Json)) : Bool :=
  (jlookup k fs).isSome

/-- `extra='forbid'`: every key of the incoming object must be a declared
field name of the model. -/
def allKeysKnown (fs : List (String × Json)) (names : List String) : Bool :=
  fs.all (fun kv => names.contains kv.1)

/-- Field validation of an optional float field (`float | None = None`):
absent or `null` means `None`, a number is accepted, anything else is a
validation error. -/
def readOptNum (fs : List (String × Json)) (k : String) : Except String (Option Rat) :=
  match jlookup k fs with
  | none => .ok none
  | some .null => .ok none
  | some (.num q) => .ok (some q)
  | some _ => .error (k ++ ": not a number")

/-- Field validation of a required float field. -/
def readNum (fs : List (String × Json)) (k : String) : Except String Rat :=
  match jlookup k fs with
  | some (.num q) => .ok q
  | some _ => .error (k ++ ": not a number")
  | none => .error (k ++ ": field required")

/-- Field validation of a float field with a default. -/
def readNumD (fs : List (String × Json)) (k : String) (d : Rat) : Except String Rat :=
  match jlookup k fs with
  | some (.num q) => .ok q
  | some _ => .error (k ++ ": not a number")
  | none => .ok d

/-- Field validation of a required int field (rejects non-integral numbers). -/
def readInt (fs : List (String × Json)) (k : String) : Except String Int :=
  match jlookup k fs with
  | some (.num q) => if q.den = 1 then .ok q.num else .error (k ++ ": not an int")
  | some _ => .error (k ++ ": not an int")
  | none => .error (k ++ ": field required")

/-- Field validation of an optional int field. -/
def readOptInt (fs : List (String × Json)) (k : String) : Except String (Option Int) :=
  match jlookup k fs with
  | none => .ok none
  | some .null => .ok none
  | some (.num q) => if q.den = 1 then .ok (some q.num) else .error (k ++ ": not an int")
  | some _ => .error (k ++ ": not an int")

/-- Field validation of an int field with a default. -/
def readIntD (fs : List (String × Json)) (k : String) (d : Int) : Except String Int :=
  match jlookup k fs with
  | some (.num q) => if q.den = 1 then .ok q.num else .error (k ++ ": not an int")
  | some _ => .error (k ++ ": not an int")
  | none => .ok d

/-- Field validation of a bool field with a default. -/
def readBoolD (fs : List (String × Json)) (k : String) (d : Bool) : Except String Bool :=
  match jlookup k fs with
  | some (.bool b) => .ok b
  | some _ => .error (k ++ ": not a bool")
  | none => .ok d

/-- Validation of one element of a `list[float]` field. -/
def jnum (k : String) : Json → Except String Rat
  | .num q => .ok q
  | _ => .error (k ++ ": element not a number")

/-- Field validation of a required `list[float]` field. -/
def readNumList (fs : List (String × Json)) (k : String) : Except String (List Rat) :=
  match jlookup k fs with
  | some (.arr xs) => xs.mapM (jnum k)
  | some _ => .error (k ++ ": not a list")
  | none => .error (k ++ ": field required")

/-- Field validation of an optional `list[float] | None` field. -/
def readOptNumList (fs : List (String × Json)) (k : String) :
    Except String (Option (List Rat)) :=
  match jlookup k fs with
  | none => .ok none
  | some .null => .ok none
  | some (.arr xs) => (xs.mapM (jnum k)).map some
  | some _ => .error (k ++ ": not a list")

/-- Serialization of one optional field under `exclude_none=True`: an unset
field contributes no key at all. -/
def ofield (k : String) : Option Rat → List (String × Json)
  | none => []
  | some q => [(k, .num q)]

/-- Serialization of one optional `list[float]` field under
`exclude_none=True`. -/
def ofieldArr (k : String) : Option (List Rat) → List (String × Json)
  | none => []
  | some xs => [(k, .arr (xs.map .num))]

/-- `True` exactly on `Except.error`. -/
def isErr : Except String α → Bool
  | .error _ => true
  | .ok _ => false

/-! ### `direct_setup/section_models.py` -/

/-- `Foil`: ~18 independently optional numeric lift/drag-curve coefficients. -/
structure Foil where
  cl_zero_angle : Option Rat := none
  cl_initial_slope : Option Rat := none
  cl_high_order_factor_positive : Option Rat := none
  cl_high_order_factor_negative : Option Rat := none
  cl_high_order_power : Option Rat := none
  cl_max_after_stall : Option Rat := none
  cd_min : Option Rat := none
  angle_cd_min : Option Rat := none
  cd_second_order_factor : Option Rat := none
  cd_max_after_stall : Option Rat := none
  cd_power_after_stall : Option Rat := none
  cdi_correction_factor : Option Rat := none
  mean_positive_stall_angle : Option Rat := none
  mean_negative_stall_angle : Option Rat := none
  stall_range : Option Rat := none
  cd_stall_angle_offset : Option Rat := none
  cd_bump_during_stall : Option Rat := none
  added_mass_factor : Option Rat := none
deriving DecidableEq

def Foil.fieldNames : List String :=
  ["cl_zero_angle", "cl_initial_slope", "cl_high_order_factor_positive",
   "cl_high_order_factor_negative", "cl_high_order_power", "cl_max_after_stall",
   "cd_min", "angle_cd_min", "cd_second_order_factor", "cd_max_after_stall",
   "cd_power_after_stall", "cdi_correction_factor", "mean_positive_stall_angle",
   "mean_negative_stall_angle", "stall_range", "cd_stall_angle_offset",
   "cd_bump_during_stall", "added_mass_factor"]

/-- Pydantic validation of `Foil` (no custom validator: `extra='forbid'`
plus per-field validation of 18 `float | None = None` fields). -/
def Foil.validate : Json → Except String Foil
  | .obj fs => do
      if allKeysKnown fs Foil.fieldNames then
        let cl_zero_angle ← readOptNum fs "cl_zero_angle"
        let cl_initial_slope ← readOptNum fs "cl_initial_slope"
        let cl_high_order_factor_positive ← readOptNum fs "cl_high_order_factor_positive"
        let cl_high_order_factor_negative ← readOptNum fs "cl_high_order_factor_negative"
        let cl_high_order_power ← readOptNum fs "cl_high_order_power"
        let cl_max_after_stall ← readOptNum fs "cl_max_after_stall"
        let cd_min ← readOptNum fs "cd_min"
        let angle_cd_min ← readOptNum fs "angle_cd_min"
        let cd_second_order_factor ← readOptNum fs "cd_second_order_factor"
        let cd_max_after_stall ← readOptNum fs "cd_max_after_stall"
        let cd_power_after_stall ← readOptNum fs "cd_power_after_stall"
        let cdi_correction_factor ← readOptNum fs "cdi_correction_factor"
        let mean_positive_stall_angle ← readOptNum fs "mean_positive_stall_angle"
        let mean_negative_stall_angle ← readOptNum fs "mean_negative_stall_angle"
        let stall_range ← readOptNum fs "stall_range"
        let cd_stall_angle_offset ← readOptNum fs "cd_stall_angle_offset"
        let cd_bump_during_stall ← readOptNum fs "cd_bump_during_stall"
        let added_mass_factor ← readOptNum fs "added_mass_factor"
        return { cl_zero_angle, cl_initial_slope, cl_high_order_factor_positive,
                 cl_high_order_factor_negative, cl_high_order_power, cl_max_after_stall,
                 cd_min, angle_cd_min, cd_second_order_factor, cd_max_after_stall,
                 cd_power_after_stall, cdi_correction_factor, mean_positive_stall_angle,
                 mean_negative_stall_angle, stall_range, cd_stall_angle_offset,
                 cd_bump_during_stall, added_mass_factor }
      else .error "Foil: extra fields forbidden"
  | _ => .error "Foil: not a dict"

/-- `Foil.model_dump(exclude_none=True, mode='json')`. -/
def Foil.ser (f : Foil) : Json :=
  .obj (ofield "cl_zero_angle" f.cl_zero_angle ++
        ofield "cl_initial_slope" f.cl_initial_slope ++
        ofield "cl_high_order_factor_positive" f.cl_high_order_factor_positive ++
        ofield "cl_high_order_factor_negative" f.cl_high_order_factor_negative ++
        ofield "cl_high_order_power" f.cl_high_order_power ++
        ofield "cl_max_after_stall" f.cl_max_after_stall ++
        ofield "cd_min" f.cd_min ++
        ofield "angle_cd_min" f.angle_cd_min ++
        ofield "cd_second_order_factor" f.cd_second_order_factor ++
        ofield "cd_max_after_stall" f.cd_max_after_stall ++
        ofield "cd_power_after_stall" f.cd_power_after_stall ++
        ofield "cdi_correction_factor" f.cdi_correction_factor ++
        ofield "mean_positive_stall_angle" f.mean_positive_stall_angle ++
        ofield "mean_negative_stall_angle" f.mean_negative_stall_angle ++
        ofield "stall_range" f.stall_range ++
        ofield "cd_stall_angle_offset" f.cd_stall_angle_offset ++
        ofield "cd_bump_during_stall" f.cd_bump_during_stall ++
        ofield "added_mass_factor" f.added_mass_factor)

/-- `VaryingFoil`: a table of internal-state values against `Foil` documents. -/
structure VaryingFoil where
  internal_state_data : List Rat
  foils_data : List Foil
  current_internal_state : Option Rat := none
deriving DecidableEq

def VaryingFoil.fieldNames : List String :=
  ["internal_state_data", "foils_data", "current_internal_state"]

def VaryingFoil.validate : Json → Except String VaryingFoil
  | .obj fs => do
      if allKeysKnown fs VaryingFoil.fieldNames then
        let internal_state_data ← readNumList fs "internal_state_data"
        let foils_data ← match jlookup "foils_data" fs with
          | some (.arr xs) => xs.mapM Foil.validate
          | some _ => .error "foils_data: not a list"
          | none => .error "foils_data: field required"
        let current_internal_state ← readOptNum fs "current_internal_state"
        return { internal_state_data, foils_data, current_internal_state }
      else .error "VaryingFoil: extra fields forbidden"
  | _ => .error "VaryingFoil: not a dict"

def VaryingFoil.ser (vf : VaryingFoil) : Json :=
  .obj ([("internal_state_data", .arr (vf.internal_state_data.map .num)),
         ("foils_data", .arr (vf.foils_data.map Foil.ser))] ++
        ofield "current_internal_state" vf.current_internal_state)

/-- `RotatingCylinder`: rotor-sail section model. -/
structure RotatingCylinder where
  revolutions_per_second : Rat := 0
  spin_ratio_data : Option (List Rat) := none
  cl_data : Option (List Rat) := none
  cd_data : Option (List Rat) := none
  added_mass_factor : Option Rat := none
deriving DecidableEq

def RotatingCylinder.fieldNames : List String :=
  ["revolutions_per_second", "spin_ratio_data", "cl_data", "cd_data",
   "added_mass_factor"]

def RotatingCylinder.validate : Json → Except String RotatingCylinder
  | .obj fs => do
      if allKeysKnown fs RotatingCylinder.fieldNames then
        let revolutions_per_second ← readNumD fs "revolutions_per_second" 0
        let spin_ratio_data ← readOptNumList fs "spin_ratio_data"
        let cl_data ← readOptNumList fs "cl_data"
        let cd_data ← readOptNumList fs "cd_data"
        let added_mass_factor ← readOptNum fs "added_mass_factor"
        return { revolutions_per_second, spin_ratio_data, cl_data, cd_data,
                 added_mass_factor }
      else .error "RotatingCylinder: extra fields forbidden"
  | _ => .error "RotatingCylinder: not a dict"

def RotatingCylinder.ser (rc : RotatingCylinder) : Json :=
  .obj ([("revolutions_per_second", .num rc.revolutions_per_second)] ++
        ofieldArr "spin_ratio_data" rc.spin_ratio_data ++
        ofieldArr "cl_data" rc.cl_data ++
        ofieldArr "cd_data" rc.cd_data ++
        ofield "added_mass_factor" rc.added_mass_factor)

/-- The union of section aerodynamic models
(`model: Foil | VaryingFoil | RotatingCylinder | EffectiveWindSensor`;
`EffectiveWindSensor` is a field-less model, i.e. a unit variant). -/
inductive SectionModelUnion where
  | foil (f : Foil) : SectionModelUnion
  | varyingFoil (vf : VaryingFoil) : SectionModelUnion
  | rotatingCylinder (rc : RotatingCylinder) : SectionModelUnion
  | effectiveWindSensor : SectionModelUnion
deriving DecidableEq

/-- `SectionModel`: the pydantic model wrapping the section-model union. -/
structure SectionModel where
  model : SectionModelUnion
deriving DecidableEq

/-- Pydantic union field validation of `model` against
`Foil | VaryingFoil | RotatingCylinder | EffectiveWindSensor`, trying the
members in declaration order (used when a raw node already carries a
`model` key). -/
def SectionModelUnion.validateField (j : Json) : Except String SectionModelUnion :=
  match Foil.validate j with
  | .ok f => .ok (.foil f)
  | .error _ =>
    match VaryingFoil.validate j with
    | .ok vf => .ok (.varyingFoil vf)
    | .error _ =>
      match RotatingCylinder.validate j with
      | .ok rc => .ok (.rotatingCylinder rc)
      | .error _ =>
        match j with
        | .obj [] => .ok .effectiveWindSensor
        | _ => .error "model: no union member matched"

/-- `SectionModel.deserialize_from_rust_enum` (a `mode='before'` validator)
followed by pydantic field validation. -/
def SectionModel.validate (data : Json) : Except String SectionModel :=
  match data with
  | .str "EffectiveWindSensor" => .ok { model := .effectiveWindSensor }
  | .obj fs =>
      if hasKey "model" fs then
        -- validator returns the data unchanged; field validation applies
        if allKeysKnown fs ["model"] then
          match jlookup "model" fs with
          | some j => (SectionModelUnion.validateField j).map (fun m => { model := m })
          | none => .error "model: field required"
        else .error "SectionModel: extra fields forbidden"
      else if hasKey "Foil" fs then
        match jlookup "Foil" fs with
        | some j => (Foil.validate j).map (fun f => { model := .foil f })
        | none => .error "unreachable"
      else if hasKey "VaryingFoil" fs then
        match jlookup "VaryingFoil" fs with
        | some j => (VaryingFoil.validate j).map (fun vf => { model := .varyingFoil vf })
        | none => .error "unreachable"
      else if hasKey "RotatingCylinder" fs then
        match jlookup "RotatingCylinder" fs with
        | some j =>
            (RotatingCylinder.validate j).map (fun rc => { model := .rotatingCylinder rc })
        | none => .error "unreachable"
      else .error "Unknown section model variant"
  | _ => .error "SectionModel: not a dict"

/-- `SectionModel.ser_model`: externally tagged object, or the bare string
for the unit variant. -/
def SectionModel.ser (sm : SectionModel) : Json :=
  match sm.model with
  | .foil f => .obj [("Foil", f.ser)]
  | .varyingFoil vf => .obj [("VaryingFoil", vf.ser)]
  | .rotatingCylinder rc => .obj [("RotatingCylinder", rc.ser)]
  | .effectiveWindSensor => .str "EffectiveWindSensor"

/-! ### `direct_setup/circulation_corrections.py` -/

/-- `GaussianSmoothingBuilder`: kernel length factor (default `0.1`). -/
structure GaussianSmoothingBuilder where
  smoothing_length_factor : Rat := (1 : Rat) / 10
deriving DecidableEq

def GaussianSmoothingBuilder.validate : Json → Except String GaussianSmoothingBuilder
  | .obj fs => do
      if allKeysKnown fs ["smoothing_length_factor"] then
        let smoothing_length_factor ← readNumD fs "smoothing_length_factor" ((1 : Rat) / 10)
        return { smoothing_length_factor }
      else .error "GaussianSmoothingBuilder: extra fields forbidden"
  | _ => .error "GaussianSmoothingBuilder: not a dict"

def GaussianSmoothingBuilder.ser (g : GaussianSmoothingBuilder) : Json :=
  .obj [("smoothing_length_factor", .num g.smoothing_length_factor)]

/-- `CirculationSmoothingBuilder`: wraps a Gaussian kernel one tagging level
deeper (`{"smoothing_type": {"Gaussian": {...}}}` on the wire).  The
`smoothing_type` field is annotated `GaussianSmoothingBuilder` in the source,
so the `CubicPolynomial` unwrap path produced by its validator cannot pass
field validation. -/
structure CirculationSmoothingBuilder where
  smoothing_type : GaussianSmoothingBuilder := {}
deriving DecidableEq

/-- `CirculationSmoothingBuilder.deserialize_from_rust_enum` followed by
pydantic field validation. -/
def CirculationSmoothingBuilder.validate (data : Json) :
    Except String CirculationSmoothingBuilder :=
  match data with
  | .obj [] => .ok {}  -- `if not data: return data`; defaults apply
  | .obj fs =>
      match jlookup "smoothing_type" fs with
      | some (.obj stfs) =>
          if hasKey "Gaussian" stfs then
            match jlookup "Gaussian" stfs with
            | some j =>
                (GaussianSmoothingBuilder.validate j).map
                  (fun g => { smoothing_type := g })
            | none => .error "unreachable"
          else if hasKey "CubicPolynomial" stfs then
            -- the validator builds a CubicPolynomialSmoothingBuilder, which the
            -- `GaussianSmoothingBuilder`-typed field then rejects
            .error "smoothing_type: CubicPolynomialSmoothingBuilder is not a GaussianSmoothingBuilder"
          else
            -- validator falls through and returns the data unchanged
            if allKeysKnown fs ["smoothing_type"] then
              (GaussianSmoothingBuilder.validate (.obj stfs)).map
                (fun g => { smoothing_type := g })
            else .error "CirculationSmoothingBuilder: extra fields forbidden"
      | some _ =>
          if allKeysKnown fs ["smoothing_type"] then
            .error "smoothing_type: not a dict"
          else .error "CirculationSmoothingBuilder: extra fields forbidden"
      | none =>
          if allKeysKnown fs ["smoothing_type"] then .ok {}
          else .error "CirculationSmoothingBuilder: extra fields forbidden"
  | _ => .error "CirculationSmoothingBuilder: not a dict"

/-- `CirculationSmoothingBuilder.ser_model`. -/
def CirculationSmoothingBuilder.ser (c : CirculationSmoothingBuilder) : Json :=
  .obj [("smoothing_type", .obj [("Gaussian", c.smoothing_type.ser)])]

/-- `PrescribedCirculationShape`. -/
structure PrescribedCirculationShape where
  inner_power : Rat := 2
  outer_power : Rat := (1 : Rat) / 2
deriving DecidableEq

def PrescribedCirculationShape.validate : Json → Except String PrescribedCirculationShape
  | .obj fs => do
      if allKeysKnown fs ["inner_power", "outer_power"] then
        let inner_power ← readNumD fs "inner_power" 2
        let outer_power ← readNumD fs "outer_power" ((1 : Rat) / 2)
        return { inner_power, outer_power }
      else .error "PrescribedCirculationShape: extra fields forbidden"
  | _ => .error "PrescribedCirculationShape: not a dict"

def PrescribedCirculationShape.ser (s : PrescribedCirculationShape) : Json :=
  .obj [("inner_power", .num s.inner_power), ("outer_power", .num s.outer_power)]

/-- `PrescribedCirculation`. -/
structure PrescribedCirculation where
  shape : PrescribedCirculationShape := {}
  curve_fit_shape_parameters : Bool := false
deriving DecidableEq

def PrescribedCirculation.validate : Json → Except String PrescribedCirculation
  | .obj fs => do
      if allKeysKnown fs ["shape", "curve_fit_shape_parameters"] then
        let shape ← match jlookup "shape" fs with
          | none => pure ({} : PrescribedCirculationShape)
          | some j => PrescribedCirculationShape.validate j
        let curve_fit_shape_parameters ← readBoolD fs "curve_fit_shape_parameters" false
        return { shape, curve_fit_shape_parameters }
      else .error "PrescribedCirculation: extra fields forbidden"
  | _ => .error "PrescribedCirculation: not a dict"

/-- `PrescribedCirculation.model_dump(exclude_none=True)` (no optional
fields, so the dump is total). -/
def PrescribedCirculation.ser (p : PrescribedCirculation) : Json :=
  .obj [("shape", p.shape.ser),
        ("curve_fit_shape_parameters", .bool p.curve_fit_shape_parameters)]

/-- The union behind the `correction` field
(`CirculationSmoothingBuilder | PrescribedCirculation | None`; the `None`
alternative is carried by the enclosing `Option`). -/
inductive CirculationCorrection where
  | smoothing (s : CirculationSmoothingBuilder) : CirculationCorrection
  | prescribed (p : PrescribedCirculation) : CirculationCorrection
deriving DecidableEq

/-- `CirculationCorrectionBuilder`. -/
structure CirculationCorrectionBuilder where
  correction : Option CirculationCorrection := none
deriving DecidableEq

/-- Pydantic union field validation of `correction` against
`CirculationSmoothingBuilder | PrescribedCirculation | None`, trying members
in declaration order (used when the raw node already carries a `correction`
key). -/
def CirculationCorrection.validateField (j : Json) :
    Except String (Option CirculationCorrection) :=
  match j with
  | .null => .ok none
  | _ =>
    match CirculationSmoothingBuilder.validate j with
    | .ok s => .ok (some (.smoothing s))
    | .error _ =>
      match PrescribedCirculation.validate j with
      | .ok p => .ok (some (.prescribed p))
      | .error _ => .error "correction: no union member matched"

/-- `CirculationCorrectionBuilder.deserialize_from_rust_enum` followed by
pydantic field validation. -/
def CirculationCorrectionBuilder.validate (data : Json) :
    Except String CirculationCorrectionBuilder :=
  match data with
  | .str "None" => .ok { correction := none }
  | .obj [] => .ok { correction := none }  -- `if not data`; default applies
  | .obj fs =>
      if hasKey "correction" fs then
        if allKeysKnown fs ["correction"] then
          match jlookup "correction" fs with
          | some j => (CirculationCorrection.validateField j).map
              (fun c => { correction := c })
          | none => .ok { correction := none }
        else .error "CirculationCorrectionBuilder: extra fields forbidden"
      else if hasKey "Prescribed" fs then
        match jlookup "Prescribed" fs with
        | some j =>
            (PrescribedCirculation.validate j).map
              (fun p => { correction := some (.prescribed p) })
        | none => .error "unreachable"
      else if hasKey "Smoothing" fs then
        match jlookup "Smoothing" fs with
        | some j =>
            (CirculationSmoothingBuilder.validate j).map
              (fun s => { correction := some (.smoothing s) })
        | none => .error "unreachable"
      else .error "Unknown circulation correction variant"
  | _ => .error "CirculationCorrectionBuilder: not a dict"

/-- `CirculationCorrectionBuilder.ser_model`: the disabled case is the
literal string `"None"`, otherwise an externally tagged object. -/
def CirculationCorrectionBuilder.ser (b : CirculationCorrectionBuilder) : Json :=
  match b.correction with
  | none => .str "None"
  | some (.prescribed p) => .obj [("Prescribed", p.ser)]
  | some (.smoothing s) => .obj [("Smoothing", s.ser)]

/-! ### `direct_setup/lifting_line/velocity_corrections.py` -/

inductive VelocityCorrectionType where
  | noCorrection : VelocityCorrectionType
  | maxInducedVelocityMagnitudeRatio : VelocityCorrectionType
  | fixedMagnitudeEqualToFreestream : VelocityCorrectionType
deriving DecidableEq

def VelocityCorrectionType.ofString : String → Except String VelocityCorrectionType
  | "NoCorrection" => .ok .noCorrection
  | "MaxInducedVelocityMagnitudeRatio" => .ok .maxInducedVelocityMagnitudeRatio
  | "FixedMagnitudeEqualToFreestream" => .ok .fixedMagnitudeEqualToFreestream
  | _ => .error "invalid VelocityCorrectionType"

/-- `VelocityCorrections`: internally a `type` discriminant plus an optional
`value`, matching the source's representation of the union. -/
structure VelocityCorrections where
  type : VelocityCorrectionType := .noCorrection
  value : Option Rat := none
deriving DecidableEq

/-- Field validation of the `type`/`value` pair (after the `mode='before'`
validator).  The `type` slot may hold either an already-resolved enum member
(inserted by the validator) or a raw string from the document. -/
def VelocityCorrections.validateFields (fs : List (String × Json)) :
    Except String VelocityCorrections := do
  if allKeysKnown fs ["type", "value"] then
    let type ← match jlookup "type" fs with
      | some (.str s) => VelocityCorrectionType.ofString s
      | some _ => .error "type: invalid"
      | none => pure VelocityCorrectionType.noCorrection
    let value ← readOptNum fs "value"
    return { type, value }
  else .error "VelocityCorrections: extra fields forbidden"

/-- `VelocityCorrections.deserialize_velocity_correction` (a `mode='before'`
validator) followed by pydantic field validation. -/
def VelocityCorrections.validate (data : Json) : Except String VelocityCorrections :=
  match data with
  | .obj fs =>
      if hasKey "type" fs then VelocityCorrections.validateFields fs
      else if hasKey "MaxInducedVelocityMagnitudeRatio" fs then
        match jlookup "MaxInducedVelocityMagnitudeRatio" fs with
        | some .null => .ok { type := .maxInducedVelocityMagnitudeRatio, value := none }
        | some (.num q) => .ok { type := .maxInducedVelocityMagnitudeRatio, value := some q }
        | _ => .error "value: not a number"
      else VelocityCorrections.validateFields fs
  | .str "NoCorrection" => .ok { type := .noCorrection, value := none }
  | .str "FixedMagnitudeEqualToFreestream" =>
      .ok { type := .fixedMagnitudeEqualToFreestream, value := none }
  | _ => .error "VelocityCorrections: not a dict"

/-- `VelocityCorrections.ser_model`: unit variants as bare strings, the
payload variant as a single-entry object. -/
def VelocityCorrections.ser (vc : VelocityCorrections) : Json :=
  match vc.type with
  | .noCorrection => .str "NoCorrection"
  | .maxInducedVelocityMagnitudeRatio =>
      .obj [("MaxInducedVelocityMagnitudeRatio",
             match vc.value with | none => .null | some q => .num q)]
  | .fixedMagnitudeEqualToFreestream => .str "FixedMagnitudeEqualToFreestream"

/-! ### `direct_setup/lifting_line/solver.py` -/

inductive FinalCirculationCorrectionMethod where
  | noCorrection : FinalCirculationCorrectionMethod
  | includeViscousLiftInEffectiveCirculation : FinalCirculationCorrectionMethod
  | fullCorrection : FinalCirculationCorrectionMethod
deriving DecidableEq

def FinalCirculationCorrectionMethod.ofString :
    String → Except String FinalCirculationCorrectionMethod
  | "NoCorrection" => .ok .noCorrection
  | "IncludeViscousLiftInEffectiveCirculation" =>
      .ok .includeViscousLiftInEffectiveCirculation
  | "FullCorrection" => .ok .fullCorrection
  | _ => .error "invalid FinalCirculationCorrectionMethod"

def FinalCirculationCorrectionMethod.toString :
    FinalCirculationCorrectionMethod → String
  | .noCorrection => "NoCorrection"
  | .includeViscousLiftInEffectiveCirculation =>
      "IncludeViscousLiftInEffectiveCirculation"
  | .fullCorrection => "FullCorrection"

/-- The `Linearized` solver variant. -/
structure Linearized where
  disable_viscous_corrections : Bool := false
  velocity_corrections : VelocityCorrections := {}
  final_circulation_correction_method : FinalCirculationCorrectionMethod := .fullCorrection
deriving DecidableEq

def Linearized.fieldNames : List String :=
  ["disable_viscous_corrections", "velocity_corrections",
   "final_circulation_correction_method"]

def Linearized.validate : Json → Except String Linearized
  | .obj fs => do
      if allKeysKnown fs Linearized.fieldNames then
        let disable_viscous_corrections ← readBoolD fs "disable_viscous_corrections" false
        let velocity_corrections ← match jlookup "velocity_corrections" fs with
          | none => pure ({} : VelocityCorrections)
          | some j => VelocityCorrections.validate j
        let final_circulation_correction_method ←
          match jlookup "final_circulation_correction_method" fs with
          | none => pure FinalCirculationCorrectionMethod.fullCorrection
          | some (.str s) => FinalCirculationCorrectionMethod.ofString s
          | some _ => .error "final_circulation_correction_method: invalid"
        return { disable_viscous_corrections, velocity_corrections,
                 final_circulation_correction_method }
      else .error "Linearized: extra fields forbidden"
  | _ => .error "Linearized: not a dict"

/-- `Linearized.model_dump()` as projected to JSON (no optional fields). -/
def Linearized.ser (l : Linearized) : Json :=
  .obj [("disable_viscous_corrections", .bool l.disable_viscous_corrections),
        ("velocity_corrections", l.velocity_corrections.ser),
        ("final_circulation_correction_method",
         .str l.final_circulation_correction_method.toString)]

/-- The `SimpleIterative` solver variant: `max_iterations_per_time_step` and
`damping_factor` are declared with no default. -/
structure SimpleIterative where
  max_iterations_per_time_step : Int
  damping_factor : Rat
  residual_tolerance_absolute : Rat := (1 : Rat) / 10000
  strength_difference_tolerance : Rat := (1 : Rat) / 1000000
  velocity_corrections : VelocityCorrections := {}
  start_with_linearized_solution : Bool := false
deriving DecidableEq

def SimpleIterative.fieldNames : List String :=
  ["max_iterations_per_time_step", "damping_factor",
   "residual_tolerance_absolute", "strength_difference_tolerance",
   "velocity_corrections", "start_with_linearized_solution"]

def SimpleIterative.validate : Json → Except String SimpleIterative
  | .obj fs => do
      if allKeysKnown fs SimpleIterative.fieldNames then
        let max_iterations_per_time_step ← readInt fs "max_iterations_per_time_step"
        let damping_factor ← readNum fs "damping_factor"
        let residual_tolerance_absolute ←
          readNumD fs "residual_tolerance_absolute" ((1 : Rat) / 10000)
        let strength_difference_tolerance ←
          readNumD fs "strength_difference_tolerance" ((1 : Rat) / 1000000)
        let velocity_corrections ← match jlookup "velocity_corrections" fs with
          | none => pure ({} : VelocityCorrections)
          | some j => VelocityCorrections.validate j
        let start_with_linearized_solution ←
          readBoolD fs "start_with_linearized_solution" false
        return { max_iterations_per_time_step, damping_factor,
                 residual_tolerance_absolute, strength_difference_tolerance,
                 velocity_corrections, start_with_linearized_solution }
      else .error "SimpleIterative: extra fields forbidden"
  | _ => .error "SimpleIterative: not a dict"

def SimpleIterative.ser (s : SimpleIterative) : Json :=
  .obj [("max_iterations_per_time_step", .num (s.max_iterations_per_time_step : Rat)),
        ("damping_factor", .num s.damping_factor),
        ("residual_tolerance_absolute", .num s.residual_tolerance_absolute),
        ("strength_difference_tolerance", .num s.strength_difference_tolerance),
        ("velocity_corrections", s.velocity_corrections.ser),
        ("start_with_linearized_solution", .bool s.start_with_linearized_solution)]

/-- The solver union (`Linearized | SimpleIterative`). -/
inductive Solver where
  | linearized (l : Linearized) : Solver
  | simpleIterative (s : SimpleIterative) : Solver
deriving DecidableEq

/-- The treatment the `solver` field receives in
`QuasiSteadySettings.deserialize_solver` / `DynamicSettings.deserialize_solver`
(unwrap the externally tagged object) followed by pydantic union field
validation (members tried in declaration order). -/
def Solver.decodeField (j : Json) : Except String Solver :=
  match j with
  | .obj fs =>
      if hasKey "Linearized" fs then
        match jlookup "Linearized" fs with
        | some j => (Linearized.validate j).map .linearized
        | none => .error "unreachable"
      else if hasKey "SimpleIterative" fs then
        match jlookup "SimpleIterative" fs with
        | some j => (SimpleIterative.validate j).map .simpleIterative
        | none => .error "unreachable"
      else
        match Linearized.validate (.obj fs) with
        | .ok l => .ok (.linearized l)
        | .error _ =>
          match SimpleIterative.validate (.obj fs) with
          | .ok s => .ok (.simpleIterative s)
          | .error _ => .error "solver: no union member matched"
  | _ => .error "solver: not a dict"

/-- The `solver` entry emitted by `QuasiSteadySettings.ser_model` /
`DynamicSettings.ser_model`: an externally tagged single-entry object. -/
def Solver.ser : Solver → Json
  | .linearized l => .obj [("Linearized", l.ser)]
  | .simpleIterative s => .obj [("SimpleIterative", s.ser)]

/-! ### `direct_setup/lifting_line/wake.py` -/

inductive SymmetryCondition where
  | noSymmetry : SymmetryCondition
  | z : SymmetryCondition
  | y : SymmetryCondition
  | x : SymmetryCondition
deriving DecidableEq

inductive ViscousCoreLengthType where
  | relative : ViscousCoreLengthType
  | absolute : ViscousCoreLengthType
  | noViscousCore : ViscousCoreLengthType
deriving DecidableEq

def ViscousCoreLengthType.ofString : String → Except String ViscousCoreLengthType
  | "Relative" => .ok .relative
  | "Absolute" => .ok .absolute
  | "NoViscousCore" => .ok .noViscousCore
  | _ => .error "invalid ViscousCoreLengthType"

/-- `ViscousCoreLength`: a `value_type` discriminant plus a value.  It
defines a custom `model_serializer` but no custom validator. -/
structure ViscousCoreLength where
  value_type : ViscousCoreLengthType := .relative
  value : Rat := (1 : Rat) / 10
deriving DecidableEq

/-- Plain pydantic validation of `ViscousCoreLength` (the model has no
`mode='before'` validator, so only its two declared fields are accepted). -/
def ViscousCoreLength.validate : Json → Except String ViscousCoreLength
  | .obj fs => do
      if allKeysKnown fs ["value_type", "value"] then
        let value_type ← match jlookup "value_type" fs with
          | none => pure ViscousCoreLengthType.relative
          | some (.str s) => ViscousCoreLengthType.ofString s
          | some _ => .error "value_type: invalid"
        let value ← readNumD fs "value" ((1 : Rat) / 10)
        return { value_type, value }
      else .error "ViscousCoreLength: extra fields forbidden"
  | _ => .error "ViscousCoreLength: not a dict"

/-- `ViscousCoreLength.ser_model`: externally tagged value or bare string. -/
def ViscousCoreLength.ser (v : ViscousCoreLength) : Json :=
  match v.value_type with
  | .relative => .obj [("Relative", .num v.value)]
  | .absolute => .obj [("Absolute", .num v.value)]
  | .noViscousCore => .str "NoViscousCore"

/-! ### `direct_setup/input_power.py` -/

/-- `InputPowerData`: two parallel lookup tables. -/
structure InputPowerData where
  section_models_internal_state_data : List Rat
  input_power_coefficient_data : List Rat
deriving DecidableEq

def InputPowerData.validate : Json → Except String InputPowerData
  | .obj fs => do
      if allKeysKnown fs ["section_models_internal_state_data",
                          "input_power_coefficient_data"] then
        let section_models_internal_state_data ←
          readNumList fs "section_models_internal_state_data"
        let input_power_coefficient_data ←
          readNumList fs "input_power_coefficient_data"
        return { section_models_internal_state_data, input_power_coefficient_data }
      else .error "InputPowerData: extra fields forbidden"
  | _ => .error "InputPowerData: not a dict"

def InputPowerData.ser (d : InputPowerData) : Json :=
  .obj [("section_models_internal_state_data",
         .arr (d.section_models_internal_state_data.map .num)),
        ("input_power_coefficient_data",
         .arr (d.input_power_coefficient_data.map .num))]

inductive InputPowerDataType where
  | noPower : InputPowerDataType
  | fromInternalStateAlone : InputPowerDataType
  | fromInternalStateAndVelocity : InputPowerDataType
deriving DecidableEq

def InputPowerDataType.ofString : String → Except String InputPowerDataType
  | "NoPower" => .ok .noPower
  | "FromInternalStateAlone" => .ok .fromInternalStateAlone
  | "FromInternalStateAndVelocity" => .ok .fromInternalStateAndVelocity
  | _ => .error "invalid InputPowerDataType"

/-- `InputPowerModel`: it defines a custom `model_serializer` but no custom
validator, so the externally tagged wire form it emits has no decoding
path. -/
structure InputPowerModel where
  input_power_type : InputPowerDataType := .noPower
  input_power_data : Option InputPowerData := none
deriving DecidableEq

/-- Plain pydantic validation of `InputPowerModel` (no `mode='before'`
validator: only an object with the two declared field names is accepted). -/
def InputPowerModel.validate : Json → Except String InputPowerModel
  | .obj fs => do
      if allKeysKnown fs ["input_power_type", "input_power_data"] then
        let input_power_type ← match jlookup "input_power_type" fs with
          | none => pure InputPowerDataType.noPower
          | some (.str s) => InputPowerDataType.ofString s
          | some _ => .error "input_power_type: invalid"
        let input_power_data ← match jlookup "input_power_data" fs with
          | none => pure (Option.none (α := InputPowerData))
          | some .null => pure (Option.none (α := InputPowerData))
          | some j => (InputPowerData.validate j).map some
        return { input_power_type, input_power_data }
      else .error "InputPowerModel: extra fields forbidden"
  | _ => .error "InputPowerModel: not a dict"

/-- `InputPowerModel.ser_model`: raises when a data-bearing variant is
selected without its table. -/
def InputPowerModel.ser (m : InputPowerModel) : Except String Json :=
  match m.input_power_type with
  | .noPower => .ok (.str "NoPower")
  | .fromInternalStateAlone =>
      match m.input_power_data with
      | none => .error "input_power_data must be set for FromInternalStateAlone"
      | some d => .ok (.obj [("FromInternalStateAlone", d.ser)])
  | .fromInternalStateAndVelocity =>
      match m.input_power_data with
      | none => .error "input_power_data must be set for FromInternalStateAndVelocity"
      | some d => .ok (.obj [("FromInternalStateAndVelocity", d.ser)])

/-! ### `direct_setup/spatial_vector.py` -/

/-- `SpatialVector`: a 3-component vector with `0.0` defaults. -/
structure SpatialVector where
  x : Rat := 0
  y : Rat := 0
  z : Rat := 0
deriving DecidableEq

def SpatialVector.validate : Json → Except String SpatialVector
  | .obj fs => do
      if allKeysKnown fs ["x", "y", "z"] then
        let x ← readNumD fs "x" 0
        let y ← readNumD fs "y" 0
        let z ← readNumD fs "z" 0
        return { x, y, z }
      else .error "SpatialVector: extra fields forbidden"
  | _ => .error "SpatialVector: not a dict"

def SpatialVector.ser (v : SpatialVector) : Json :=
  .obj [("x", .num v.x), ("y", .num v.y), ("z", .num v.z)]

/-! ### `direct_setup/controller.py` -/

inductive InternalStateType where
  | generic : InternalStateType
  | spinRatio : InternalStateType
deriving DecidableEq

def InternalStateType.ofString : String → Except String InternalStateType
  | "Generic" => .ok .generic
  | "SpinRatio" => .ok .spinRatio
  | _ => .error "invalid InternalStateType"

structure SpinRatioConversion where
  diameter : Rat
  max_rps : Rat
deriving DecidableEq

def SpinRatioConversion.validate : Json → Except String SpinRatioConversion
  | .obj fs => do
      if allKeysKnown fs ["diameter", "max_rps"] then
        let diameter ← readNum fs "diameter"
        let max_rps ← readNum fs "max_rps"
        return { diameter, max_rps }
      else .error "SpinRatioConversion: extra fields forbidden"
  | _ => .error "SpinRatioConversion: not a dict"

def SpinRatioConversion.ser (c : SpinRatioConversion) : Json :=
  .obj [("diameter", .num c.diameter), ("max_rps", .num c.max_rps)]

/-- `ControllerLogic`.  `internal_state_conversion` is declared with
`Field(default=None, exclude=True)`: it never appears in the dump directly;
the `internal_state_type` field serializer folds it in. -/
structure ControllerLogic where
  apparent_wind_directions_data : List Rat
  angle_of_attack_set_points_data : Option (List Rat) := none
  section_model_internal_state_set_points_data : Option (List Rat) := none
  internal_state_type : InternalStateType := .generic
  internal_state_conversion : Option SpinRatioConversion := none
  use_effective_angle_of_attack : Bool := false
deriving DecidableEq

def ControllerLogic.fieldNames : List String :=
  ["apparent_wind_directions_data", "angle_of_attack_set_points_data",
   "section_model_internal_state_set_points_data", "internal_state_type",
   "internal_state_conversion", "use_effective_angle_of_attack"]

/-- Plain pydantic validation of `ControllerLogic` (the model declares no
validator: no cross-field check ties `internal_state_type` to
`internal_state_conversion`). -/
def ControllerLogic.validate : Json → Except String ControllerLogic
  | .obj fs => do
      if allKeysKnown fs ControllerLogic.fieldNames then
        let apparent_wind_directions_data ←
          readNumList fs "apparent_wind_directions_data"
        let angle_of_attack_set_points_data ←
          readOptNumList fs "angle_of_attack_set_points_data"
        let section_model_internal_state_set_points_data ←
          readOptNumList fs "section_model_internal_state_set_points_data"
        let internal_state_type ← match jlookup "internal_state_type" fs with
          | none => pure InternalStateType.generic
          | some (.str s) => InternalStateType.ofString s
          | some _ => .error "internal_state_type: invalid"
        let internal_state_conversion ← match jlookup "internal_state_conversion" fs with
          | none => pure (Option.none (α := SpinRatioConversion))
          | some .null => pure (Option.none (α := SpinRatioConversion))
          | some j => (SpinRatioConversion.validate j).map some
        let use_effective_angle_of_attack ←
          readBoolD fs "use_effective_angle_of_attack" false
        return { apparent_wind_directions_data, angle_of_attack_set_points_data,
                 section_model_internal_state_set_points_data, internal_state_type,
                 internal_state_conversion, use_effective_angle_of_attack }
      else .error "ControllerLogic: extra fields forbidden"
  | _ => .error "ControllerLogic: not a dict"

/-- The value the `internal_state_type` field serializer
(`ControllerLogic.serialize_internal_state_type`) produces: it raises when
`SpinRatio` is selected without a conversion payload. -/
def ControllerLogic.serInternalStateType (l : ControllerLogic) : Except String Json :=
  match l.internal_state_type with
  | .generic => .ok (.str "Generic")
  | .spinRatio =>
      match l.internal_state_conversion with
      | none => .error "SpinRatioConversion must be provided for SpinRatio internal state type."
      | some c => .ok (.obj [("SpinRatio", c.ser)])

/-- `ControllerLogic.model_dump_json(exclude_none=True)`: the excluded
conversion field is dropped, optional unset tables are omitted, and the
field serializer for `internal_state_type` runs (and can raise). -/
def ControllerLogic.ser (l : ControllerLogic) : Except String Json := do
  let ist ← l.serInternalStateType
  return .obj ([("apparent_wind_directions_data",
                 .arr (l.apparent_wind_directions_data.map .num))] ++
               ofieldArr "angle_of_attack_set_points_data"
                 l.angle_of_attack_set_points_data ++
               ofieldArr "section_model_internal_state_set_points_data"
                 l.section_model_internal_state_set_points_data ++
               [("internal_state_type", ist),
                ("use_effective_angle_of_attack",
                 .bool l.use_effective_angle_of_attack)])

/-! ### `direct_setup/line_force_model.py` -/

inductive CoordinateSystem where
  | global : CoordinateSystem
  | body : CoordinateSystem
deriving DecidableEq

/-- `WingBuilder`: geometry plus one section model.  The model declares no
validator relating `section_points` to `chord_vectors`. -/
structure WingBuilder where
  section_points : List SpatialVector
  chord_vectors : List SpatialVector
  section_model : SectionModel
  non_zero_circulation_at_ends : Bool × Bool := (false, false)
  nr_sections : Option Int := none
  input_power_model : InputPowerModel := {}
deriving DecidableEq

def WingBuilder.fieldNames : List String :=
  ["section_points", "chord_vectors", "section_model",
   "non_zero_circulation_at_ends", "nr_sections", "input_power_model"]

/-- Field validation of a `list[SpatialVector]` field. -/
def readPointList (fs : List (String × Json)) (k : String) :
    Except String (List SpatialVector) :=
  match jlookup k fs with
  | some (.arr xs) => xs.mapM SpatialVector.validate
  | some _ => .error (k ++ ": not a list")
  | none => .error (k ++ ": field required")

/-- Plain pydantic validation of `WingBuilder` (`extra='forbid'`,
required geometry lists of any length, no cross-field length check). -/
def WingBuilder.validate : Json → Except String WingBuilder
  | .obj fs => do
      if allKeysKnown fs WingBuilder.fieldNames then
        let section_points ← readPointList fs "section_points"
        let chord_vectors ← readPointList fs "chord_vectors"
        let section_model ← match jlookup "section_model" fs with
          | some j => SectionModel.validate j
          | none => .error "section_model: field required"
        let non_zero_circulation_at_ends ←
          match jlookup "non_zero_circulation_at_ends" fs with
          | none => pure (false, false)
          | some (.arr [.bool a, .bool b]) => pure (a, b)
          | some _ => .error "non_zero_circulation_at_ends: not a 2-tuple of bools"
        let nr_sections ← readOptInt fs "nr_sections"
        let input_power_model ← match jlookup "input_power_model" fs with
          | none => pure ({} : InputPowerModel)
          | some j => InputPowerModel.validate j
        return { section_points, chord_vectors, section_model,
                 non_zero_circulation_at_ends, nr_sections, input_power_model }
      else .error "WingBuilder: extra fields forbidden"
  | _ => .error "WingBuilder: not a dict"

/-- `LineForceModelBuilder`. -/
structure LineForceModelBuilder where
  wing_builders : List WingBuilder := []
  nr_sections : Int := 20
  density : Rat := (1225 : Rat) / 1000
  local_wing_angles : List Rat := []
  rotation : SpatialVector := {}
  translation : SpatialVector := {}
  circulation_correction : CirculationCorrectionBuilder := {}
  output_coordinate_system : CoordinateSystem := .global
deriving DecidableEq

/-- `LineForceModelBuilder.add_wing_builder`: appends the wing and a zero
local wing angle together. -/
def LineForceModelBuilder.add_wing_builder (b : LineForceModelBuilder)
    (w : WingBuilder) : LineForceModelBuilder :=
  { b with wing_builders := b.wing_builders ++ [w],
           local_wing_angles := b.local_wing_angles ++ [0] }

/-! ### `direct_setup/lifting_line/wake.py` (dynamic wake) and
`direct_setup/lifting_line/simulation_builder.py` (DynamicSettings) -/

structure DynamicWakeBuilder where
  nr_panels_per_line_element : Int := 100
  viscous_core_length : ViscousCoreLength := {}
  symmetry_condition : SymmetryCondition := .noSymmetry
  first_panel_relative_length : Rat := (3 : Rat) / 4
  last_panel_relative_length : Rat := 25
  use_chord_direction : Bool := false
  write_wake_data_to_file : Bool := false
  wake_files_folder_path : String := ""
deriving DecidableEq

structure QuasiSteadyWakeSettings where
  wake_length_factor : Rat := 100
  symmetry_condition : SymmetryCondition := .noSymmetry
  viscous_core_length : ViscousCoreLength := {}
deriving DecidableEq

/-- `DynamicSettings`: solver union plus dynamic wake settings. -/
structure DynamicSettings where
  solver : Solver
  wake : DynamicWakeBuilder
deriving DecidableEq

/-- Evaluating the declared defaults of `DynamicSettings`
(`solver: SimpleIterative | Linearized = SimpleIterative()`): the default
expression constructs `SimpleIterative` with no arguments, i.e. validates an
empty keyword set against a model with two required fields. -/
def DynamicSettings.mkDefault : Except String DynamicSettings := do
  let solver ← (SimpleIterative.validate (.obj [])).map Solver.simpleIterative
  return { solver, wake := {} }

def SymmetryCondition.ofString : String → Except String SymmetryCondition
  | "NoSymmetry" => .ok .noSymmetry
  | "Z" => .ok .z
  | "Y" => .ok .y
  | "X" => .ok .x
  | _ => .error "invalid SymmetryCondition"

def SymmetryCondition.toString : SymmetryCondition → String
  | .noSymmetry => "NoSymmetry"
  | .z => "Z"
  | .y => "Y"
  | .x => "X"

/-- Plain pydantic validation of `QuasiSteadyWakeSettings` (no custom
validator; the nested `viscous_core_length` field is validated by
`ViscousCoreLength`'s plain field validation). -/
def QuasiSteadyWakeSettings.validate : Json → Except String QuasiSteadyWakeSettings
  | .obj fs => do
      if allKeysKnown fs ["wake_length_factor", "symmetry_condition",
                          "viscous_core_length"] then
        let wake_length_factor ← readNumD fs "wake_length_factor" 100
        let symmetry_condition ← match jlookup "symmetry_condition" fs with
          | none => pure SymmetryCondition.noSymmetry
          | some (.str s) => SymmetryCondition.ofString s
          | some _ => .error "symmetry_condition: invalid"
        let viscous_core_length ← match jlookup "viscous_core_length" fs with
          | none => pure ({} : ViscousCoreLength)
          | some j => ViscousCoreLength.validate j
        return { wake_length_factor, symmetry_condition, viscous_core_length }
      else .error "QuasiSteadyWakeSettings: extra fields forbidden"
  | _ => .error "QuasiSteadyWakeSettings: not a dict"

/-- `QuasiSteadyWakeSettings.model_dump()` as projected to JSON; the nested
`viscous_core_length` dumps through its custom `model_serializer`. -/
def QuasiSteadyWakeSettings.ser (w : QuasiSteadyWakeSettings) : Json :=
  .obj [("wake_length_factor", .num w.wake_length_factor),
        ("symmetry_condition", .str w.symmetry_condition.toString),
        ("viscous_core_length", w.viscous_core_length.ser)]

/-- `QuasiSteadySettings`: one Simulation-Mode variant payload (solver union
plus quasi-steady wake settings). -/
structure QuasiSteadySettings where
  solver : Solver := .linearized {}
  wake : QuasiSteadyWakeSettings := {}
deriving DecidableEq

/-- `QuasiSteadySettings.deserialize_solver` (a `mode='before'` validator
that unwraps the externally tagged `solver` entry) followed by pydantic field
validation. -/
def QuasiSteadySettings.validate : Json → Except String QuasiSteadySettings
  | .obj fs => do
      if allKeysKnown fs ["solver", "wake"] then
        let solver ← match jlookup "solver" fs with
          | none => pure (Solver.linearized {})
          | some j => Solver.decodeField j
        let wake ← match jlookup "wake" fs with
          | none => pure ({} : QuasiSteadyWakeSettings)
          | some j => QuasiSteadyWakeSettings.validate j
        return { solver, wake }
      else .error "QuasiSteadySettings: extra fields forbidden"
  | _ => .error "QuasiSteadySettings: not a dict"

/-- `QuasiSteadySettings.ser_model`. -/
def QuasiSteadySettings.ser (q : QuasiSteadySettings) : Json :=
  .obj [("solver", q.solver.ser), ("wake", q.wake.ser)]

/-- The Simulation-Mode union (`QuasiSteadySettings | DynamicSettings`), as
tagged by `SimulationBuilder.ser_model` /
`SimulationBuilder.deserialize_simulation_settings`. -/
inductive SimulationMode where
  | quasiSteady (q : QuasiSteadySettings) : SimulationMode
  | dynamic (d : DynamicSettings) : SimulationMode
deriving DecidableEq

/-- Field validation of a string field with a default. -/
def readStrD (fs : List (String × Json)) (k : String) (d : String) :
    Except String String :=
  match jlookup k fs with
  | some (.str s) => .ok s
  | some _ => .error (k ++ ": not a string")
  | none => .ok d

/-- Plain pydantic validation of `DynamicWakeBuilder` (no custom validator). -/
def DynamicWakeBuilder.validate : Json → Except String DynamicWakeBuilder
  | .obj fs => do
      if allKeysKnown fs ["nr_panels_per_line_element", "viscous_core_length",
                          "symmetry_condition", "first_panel_relative_length",
                          "last_panel_relative_length", "use_chord_direction",
                          "write_wake_data_to_file", "wake_files_folder_path"] then
        let nr_panels_per_line_element ← readIntD fs "nr_panels_per_line_element" 100
        let viscous_core_length ← match jlookup "viscous_core_length" fs with
          | none => pure ({} : ViscousCoreLength)
          | some j => ViscousCoreLength.validate j
        let symmetry_condition ← match jlookup "symmetry_condition" fs with
          | none => pure SymmetryCondition.noSymmetry
          | some (.str s) => SymmetryCondition.ofString s
          | some _ => .error "symmetry_condition: invalid"
        let first_panel_relative_length ←
          readNumD fs "first_panel_relative_length" ((3 : Rat) / 4)
        let last_panel_relative_length ←
          readNumD fs "last_panel_relative_length" 25
        let use_chord_direction ← readBoolD fs "use_chord_direction" false
        let write_wake_data_to_file ← readBoolD fs "write_wake_data_to_file" false
        let wake_files_folder_path ← readStrD fs "wake_files_folder_path" ""
        return { nr_panels_per_line_element, viscous_core_length,
                 symmetry_condition, first_panel_relative_length,
                 last_panel_relative_length, use_chord_direction,
                 write_wake_data_to_file, wake_files_folder_path }
      else .error "DynamicWakeBuilder: extra fields forbidden"
  | _ => .error "DynamicWakeBuilder: not a dict"

/-- `DynamicWakeBuilder.model_dump()` as projected to JSON. -/
def DynamicWakeBuilder.ser (w : DynamicWakeBuilder) : Json :=
  .obj [("nr_panels_per_line_element", .num (w.nr_panels_per_line_element : Rat)),
        ("viscous_core_length", w.viscous_core_length.ser),
        ("symmetry_condition", .str w.symmetry_condition.toString),
        ("first_panel_relative_length", .num w.first_panel_relative_length),
        ("last_panel_relative_length", .num w.last_panel_relative_length),
        ("use_chord_direction", .bool w.use_chord_direction),
        ("write_wake_data_to_file", .bool w.write_wake_data_to_file),
        ("wake_files_folder_path", .str w.wake_files_folder_path)]

/-- `DynamicSettings.deserialize_solver` followed by pydantic field
validation (mirrors the quasi-steady variant, with the dynamic wake). -/
def DynamicSettings.validate : Json → Except String DynamicSettings
  | .obj fs => do
      if allKeysKnown fs ["solver", "wake"] then
        let solver ← match jlookup "solver" fs with
          | none => .error "solver: a default SimpleIterative() cannot be constructed"
          | some j => Solver.decodeField j
        let wake ← match jlookup "wake" fs with
          | none => pure ({} : DynamicWakeBuilder)
          | some j => DynamicWakeBuilder.validate j
        return { solver, wake }
      else .error "DynamicSettings: extra fields forbidden"
  | _ => .error "DynamicSettings: not a dict"

/-- `DynamicSettings.ser_model`. -/
def DynamicSettings.ser (d : DynamicSettings) : Json :=
  .obj [("solver", d.solver.ser), ("wake", d.wake.ser)]

/-- The `simulation_settings` entry emitted by `SimulationBuilder.ser_model`. -/
def SimulationMode.ser : SimulationMode → Json
  | .quasiSteady q => .obj [("QuasiSteady", q.ser)]
  | .dynamic d => .obj [("Dynamic", d.ser)]

/-- The treatment the `simulation_settings` field receives in
`SimulationBuilder.deserialize_simulation_settings` (unwrap the externally
tagged object) followed by pydantic union field validation. -/
def SimulationMode.decodeField (j : Json) : Except String SimulationMode :=
  match j with
  | .obj fs =>
      if hasKey "QuasiSteady" fs then
        match jlookup "QuasiSteady" fs with
        | some p => (QuasiSteadySettings.validate p).map .quasiSteady
        | none => .error "unreachable"
      else if hasKey "Dynamic" fs then
        match jlookup "Dynamic" fs with
        | some p => (DynamicSettings.validate p).map .dynamic
        | none => .error "unreachable"
      else
        match QuasiSteadySettings.validate (.obj fs) with
        | .ok q => .ok (.quasiSteady q)
        | .error _ =>
          match DynamicSettings.validate (.obj fs) with
          | .ok d => .ok (.dynamic d)
          | .error _ => .error "simulation_settings: no union member matched"
  | _ => .error "simulation_settings: not a dict"

/-- Canonical union values of `VelocityCorrections`: a unit variant carries
no stale `value` payload (the only states producible by the constructors and
the decoder). -/
def VelocityCorrections.wf (vc : VelocityCorrections) : Prop :=
  vc.type = .maxInducedVelocityMagnitudeRatio ∨ vc.value = none

instance (vc : VelocityCorrections) : Decidable vc.wf := by
  unfold VelocityCorrections.wf
  infer_instance

/-- Canonical solver values: the nested velocity correction is canonical. -/
def Solver.wf : Solver → Prop
  | .linearized l => l.velocity_corrections.wf
  | .simpleIterative s => s.velocity_corrections.wf

instance (s : Solver) : Decidable s.wf := by
  unfold Solver.wf
  cases s <;> infer_instance

/-- The document shape handed to `WingBuilder` in the amended Scenario-B
statement: two geometry arrays of arbitrary lengths plus the unit section
model. -/
def mkWingJson (ps cs : List SpatialVector) : Json :=
  .obj [("section_points", .arr (ps.map SpatialVector.ser)),
        ("chord_vectors", .arr (cs.map SpatialVector.ser)),
        ("section_model", .str "EffectiveWindSensor")]

/-- A minimal concrete wing builder, used to exercise `add_wing_builder`. -/
def wingZero : WingBuilder :=
  { section_points := [], chord_vectors := [],
    section_model := { model := .effectiveWindSensor } }

/-! ### Helper lemmas for the round-trip proofs -/

@[simp]
theorem exceptMap_ok {ε α β : Type} (f : α → β) (a : α) :
    Except.map f (Except.ok a : Except ε α) = .ok (f a) := rfl

@[simp]
theorem exceptBind_ok {ε α β : Type} (a : α) (k : α → Except ε β) :
    (Except.ok a : Except ε α) >>= k = k a := rfl

@[simp]
theorem exceptPure_eq_ok {ε α : Type} (a : α) :
    (pure a : Except ε α) = .ok a := rfl

@[simp]
theorem jlookup_nil (k : String) : jlookup k [] = none := rfl

@[simp]
theorem jlookup_ofield_skip {k k' : String} (h : ¬ k' = k) (v : Option Rat)
    (rest : List (String × Json)) :
    jlookup k (ofield k' v ++ rest) = jlookup k rest := by
  cases v <;> simp [ofield, jlookup, h]

@[simp]
theorem jlookup_ofield_skip_single {k k' : String} (h : ¬ k' = k) (v : Option Rat) :
    jlookup k (ofield k' v) = none := by
  cases v <;> simp [ofield, jlookup, h]

@[simp]
theorem readOptNum_ofield_skip {k k' : String} (h : ¬ k' = k) (v : Option Rat)
    (rest : List (String × Json)) :
    readOptNum (ofield k' v ++ rest) k = readOptNum rest k := by
  cases v <;> simp [ofield, readOptNum, jlookup, h]

@[simp]
theorem readOptNum_ofield_self {k : String} (v : Option Rat)
    (rest : List (String × Json)) (hrest : jlookup k rest = none) :
    readOptNum (ofield k v ++ rest) k = .ok v := by
  cases v <;> simp [ofield, readOptNum, jlookup, hrest]

@[simp]
theorem readOptNum_ofield_self_single {k : String} (v : Option Rat) :
    readOptNum (ofield k v) k = .ok v := by
  cases v <;> simp [ofield, readOptNum, jlookup]

@[simp]
theorem jlookup_ofieldArr_skip {k k' : String} (h : ¬ k' = k) (v : Option (List Rat))
    (rest : List (String × Json)) :
    jlookup k (ofieldArr k' v ++ rest) = jlookup k rest := by
  cases v <;> simp [ofieldArr, jlookup, h]

@[simp]
theorem jlookup_ofieldArr_skip_single {k k' : String} (h : ¬ k' = k)
    (v : Option (List Rat)) : jlookup k (ofieldArr k' v) = none := by
  cases v <;> simp [ofieldArr, jlookup, h]

@[simp]
theorem readOptNum_ofieldArr_skip {k k' : String} (h : ¬ k' = k)
    (v : Option (List Rat)) (rest : List (String × Json)) :
    readOptNum (ofieldArr k' v ++ rest) k = readOptNum rest k := by
  cases v <;> simp [ofieldArr, readOptNum, jlookup, h]

@[simp]
theorem readOptNumList_cons_skip {k k' : String} (h : ¬ k' = k) (v : Json)
    (rest : List (String × Json)) :
    readOptNumList ((k', v) :: rest) k = readOptNumList rest k := by
  simp [readOptNumList, jlookup, h]

@[simp]
theorem readOptNumList_ofieldArr_skip {k k' : String} (h : ¬ k' = k)
    (v : Option (List Rat)) (rest : List (String × Json)) :
    readOptNumList (ofieldArr k' v ++ rest) k = readOptNumList rest k := by
  cases v <;> simp [ofieldArr, readOptNumList, jlookup, h]

@[simp]
theorem allKeysKnown_nil (names : List String) : allKeysKnown [] names = true := rfl

@[simp]
theorem allKeysKnown_cons (k : String) (v : Json) (rest : List (String × Json))
    (names : List String) :
    allKeysKnown ((k, v) :: rest) names =
      (names.contains k && allKeysKnown rest names) := by
  simp [allKeysKnown]

@[simp]
theorem allKeysKnown_append (xs ys : List (String × Json)) (names : List String) :
    allKeysKnown (xs ++ ys) names =
      (allKeysKnown xs names && allKeysKnown ys names) := by
  simp [allKeysKnown]

@[simp]
theorem allKeysKnown_ofield (k : String) (v : Option Rat) (names : List String) :
    allKeysKnown (ofield k v) names = (v.isNone || names.contains k) := by
  cases v <;> simp [allKeysKnown, ofield]

@[simp]
theorem allKeysKnown_ofieldArr (k : String) (v : Option (List Rat))
    (names : List String) :
    allKeysKnown (ofieldArr k v) names = (v.isNone || names.contains k) := by
  cases v <;> simp [allKeysKnown, ofieldArr]

/-- Element-wise round trip lifted to `List.mapM.loop`. -/
theorem mapM_loop_ok_of_roundtrip {α : Type} (val : Json → Except String α)
    (f : α → Json) (h : ∀ a, val (f a) = .ok a) (xs : List α) (acc : List α) :
    List.mapM.loop val (xs.map f) acc = .ok (acc.reverse ++ xs) := by
  induction xs generalizing acc with
  | nil => simp [List.mapM.loop]
  | cons a t ih => simp [List.mapM.loop, h, ih]

/-- Element-wise round trip lifted to lists. -/
theorem mapM_ok_of_roundtrip {α : Type} (val : Json → Except String α)
    (f : α → Json) (h : ∀ a, val (f a) = .ok a) (xs : List α) :
    (xs.map f).mapM val = .ok xs := by
  have := mapM_loop_ok_of_roundtrip val f h xs []
  simpa [List.mapM] using this

/-- `decode ∘ encode = id` for `Foil`. -/
theorem foil_roundtrip (f : Foil) : Foil.validate f.ser = .ok f := by
  simp [Foil.ser, Foil.validate, Foil.fieldNames]

@[simp]
theorem jlookup_ofield_self_single {k : String} (v : Option Rat) :
    jlookup k (ofield k v) = v.map Json.num := by
  cases v <;> simp [ofield, jlookup]

@[simp]
theorem readOptNum_cons_skip {k k' : String} (h : ¬ k' = k) (v : Json)
    (rest : List (String × Json)) :
    readOptNum ((k', v) :: rest) k = readOptNum rest k := by
  simp [readOptNum, jlookup, h]

@[simp]
theorem mapM_jnum_map_num (k : String) (xs : List Rat) :
    (xs.map Json.num).mapM (jnum k) = .ok xs :=
  mapM_ok_of_roundtrip (jnum k) Json.num (fun _ => rfl) xs

@[simp]
theorem mapM_loop_jnum_map_num (k : String) (xs acc : List Rat) :
    List.mapM.loop (jnum k) (xs.map Json.num) acc = .ok (acc.reverse ++ xs) :=
  mapM_loop_ok_of_roundtrip (jnum k) Json.num (fun _ => rfl) xs acc

theorem mapM_foil_validate_map_ser (xs : List Foil) :
    (xs.map Foil.ser).mapM Foil.validate = .ok xs :=
  mapM_ok_of_roundtrip _ _ foil_roundtrip xs

theorem mapM_loop_foil_validate_map_ser (xs acc : List Foil) :
    List.mapM.loop Foil.validate (xs.map Foil.ser) acc = .ok (acc.reverse ++ xs) :=
  mapM_loop_ok_of_roundtrip _ _ foil_roundtrip xs acc

@[simp]
theorem readOptNumList_ofieldArr_self {k : String} (v : Option (List Rat))
    (rest : List (String × Json)) (hrest : jlookup k rest = none) :
    readOptNumList (ofieldArr k v ++ rest) k = .ok v := by
  cases v <;> simp [ofieldArr, readOptNumList, jlookup, hrest]

@[simp]
theorem readOptNumList_ofieldArr_self_single {k : String} (v : Option (List Rat)) :
    readOptNumList (ofieldArr k v) k = .ok v := by
  cases v <;> simp [ofieldArr, readOptNumList, jlookup]

/-- `decode ∘ encode = id` for `VaryingFoil`. -/
theorem Varyingfoil_roundtrip (vf : VaryingFoil) :
    VaryingFoil.validate vf.ser = .ok vf := by
  simp [VaryingFoil.ser, VaryingFoil.validate, VaryingFoil.fieldNames,
        readNumList, jlookup, mapM_foil_validate_map_ser,
        mapM_loop_foil_validate_map_ser]

/-- `decode ∘ encode = id` for `RotatingCylinder`. -/
theorem rotatingCylinder_roundtrip (rc : RotatingCylinder) :
    RotatingCylinder.validate rc.ser = .ok rc := by
  simp [RotatingCylinder.ser, RotatingCylinder.validate,
        RotatingCylinder.fieldNames, readNumD, jlookup]

/-- `decode ∘ encode = id` for the full `SectionModel` union. -/
theorem sectionModel_roundtrip (sm : SectionModel) :
    SectionModel.validate sm.ser = .ok sm := by
  obtain ⟨m⟩ := sm
  cases m with
  | foil f =>
      simp [SectionModel.ser, SectionModel.validate, hasKey, jlookup,
            foil_roundtrip]
  | varyingFoil vf =>
      simp [SectionModel.ser, SectionModel.validate, hasKey, jlookup,
            Varyingfoil_roundtrip]
  | rotatingCylinder rc =>
      simp [SectionModel.ser, SectionModel.validate, hasKey, jlookup,
            rotatingCylinder_roundtrip]
  | effectiveWindSensor => rfl

/-- `decode ∘ encode = id` for `GaussianSmoothingBuilder`. -/
theorem gaussianSmoothing_roundtrip (g : GaussianSmoothingBuilder) :
    GaussianSmoothingBuilder.validate g.ser = .ok g := by
  simp [GaussianSmoothingBuilder.ser, GaussianSmoothingBuilder.validate,
        readNumD, jlookup, allKeysKnown]

/-- `decode ∘ encode = id` for `CirculationSmoothingBuilder`. -/
theorem circulationSmoothing_roundtrip (c : CirculationSmoothingBuilder) :
    CirculationSmoothingBuilder.validate c.ser = .ok c := by
  simp [CirculationSmoothingBuilder.ser, CirculationSmoothingBuilder.validate,
        hasKey, jlookup, gaussianSmoothing_roundtrip]

/-- `decode ∘ encode = id` for `PrescribedCirculationShape`. -/
theorem prescribedShape_roundtrip (s : PrescribedCirculationShape) :
    PrescribedCirculationShape.validate s.ser = .ok s := by
  simp [PrescribedCirculationShape.ser, PrescribedCirculationShape.validate,
        readNumD, jlookup, allKeysKnown]

/-- `decode ∘ encode = id` for `PrescribedCirculation`. -/
theorem prescribedCirculation_roundtrip (p : PrescribedCirculation) :
    PrescribedCirculation.validate p.ser = .ok p := by
  simp [PrescribedCirculation.ser, PrescribedCirculation.validate,
        readBoolD, jlookup, allKeysKnown, prescribedShape_roundtrip]

/-- `decode ∘ encode = id` for the full `CirculationCorrectionBuilder` union,
including the disabled sentinel `"None"`. -/
theorem circulationCorrection_roundtrip (b : CirculationCorrectionBuilder) :
    CirculationCorrectionBuilder.validate b.ser = .ok b := by
  obtain ⟨c⟩ := b
  match c with
  | none => rfl
  | some (.smoothing s) =>
      simp [CirculationCorrectionBuilder.ser, CirculationCorrectionBuilder.validate,
            hasKey, jlookup, circulationSmoothing_roundtrip]
  | some (.prescribed p) =>
      simp [CirculationCorrectionBuilder.ser, CirculationCorrectionBuilder.validate,
            hasKey, jlookup, prescribedCirculation_roundtrip]

/-- `decode ∘ encode = id` for canonical `VelocityCorrections` values. -/
theorem velocityCorrections_roundtrip (vc : VelocityCorrections)
    (h : vc.wf) : VelocityCorrections.validate vc.ser = .ok vc := by
  obtain ⟨t, v⟩ := vc
  cases t with
  | maxInducedVelocityMagnitudeRatio =>
      cases v <;> simp [VelocityCorrections.ser, VelocityCorrections.validate,
                        hasKey, jlookup]
  | noCorrection =>
      obtain h | h := h
      · exact absurd h (by simp)
      · simp only at h
        subst h
        rfl
  | fixedMagnitudeEqualToFreestream =>
      obtain h | h := h
      · exact absurd h (by simp)
      · simp only at h
        subst h
        rfl

theorem fccMethod_enum_roundtrip
    (m : FinalCirculationCorrectionMethod) :
    FinalCirculationCorrectionMethod.ofString m.toString = .ok m := by
  cases m <;> rfl

/-- `decode ∘ encode = id` for the `Linearized` solver variant. -/
theorem linearized_roundtrip (l : Linearized)
    (h : l.velocity_corrections.wf) : Linearized.validate l.ser = .ok l := by
  simp [Linearized.ser, Linearized.validate, Linearized.fieldNames, readBoolD,
        jlookup, velocityCorrections_roundtrip _ h,
        fccMethod_enum_roundtrip]

/-- `decode ∘ encode = id` for the `SimpleIterative` solver variant. -/
theorem simpleIterative_roundtrip (s : SimpleIterative)
    (h : s.velocity_corrections.wf) : SimpleIterative.validate s.ser = .ok s := by
  simp [SimpleIterative.ser, SimpleIterative.validate, SimpleIterative.fieldNames,
        readInt, readNum, readNumD, readBoolD, jlookup,
        velocityCorrections_roundtrip _ h, Rat.den_intCast, Rat.num_intCast]

/-- `decode ∘ encode = id` for the solver union as handled by the
`solver` field of the simulation-settings models. -/
theorem solver_roundtrip (s : Solver) (h : s.wf) :
    Solver.decodeField s.ser = .ok s := by
  cases s with
  | linearized l =>
      simp [Solver.ser, Solver.decodeField, hasKey, jlookup,
            linearized_roundtrip _ h]
  | simpleIterative si =>
      simp [Solver.ser, Solver.decodeField, hasKey, jlookup,
            simpleIterative_roundtrip _ h]

/-- `InputPowerModel` defines no decoding path: validating any of its own
encodings fails. -/
theorem inputPowerModel_no_roundtrip (m : InputPowerModel) (out : Json)
    (h : m.ser = .ok out) : isErr (InputPowerModel.validate out) = true := by
  obtain ⟨t, d⟩ := m
  cases t with
  | noPower =>
      obtain rfl : out = .str "NoPower" := by
        simpa [InputPowerModel.ser] using h.symm
      rfl
  | fromInternalStateAlone =>
      cases d with
      | none => simp [InputPowerModel.ser] at h
      | some d =>
          obtain rfl : out = .obj [("FromInternalStateAlone", d.ser)] := by
            simpa [InputPowerModel.ser] using h.symm
          simp [InputPowerModel.validate, allKeysKnown, isErr]
  | fromInternalStateAndVelocity =>
      cases d with
      | none => simp [InputPowerModel.ser] at h
      | some d =>
          obtain rfl : out = .obj [("FromInternalStateAndVelocity", d.ser)] := by
            simpa [InputPowerModel.ser] using h.symm
          simp [InputPowerModel.validate, allKeysKnown, isErr]

/-- `ViscousCoreLength` defines no decoding path: validating any of its own
encodings fails. -/
theorem viscousCoreLength_no_roundtrip (v : ViscousCoreLength) :
    isErr (ViscousCoreLength.validate v.ser) = true := by
  obtain ⟨t, q⟩ := v
  cases t <;> simp [ViscousCoreLength.ser, ViscousCoreLength.validate,
                    allKeysKnown, isErr]

@[simp]
theorem exceptBind_error {ε α β : Type} (e : ε) (k : α → Except ε β) :
    (Except.error e : Except ε α) >>= k = .error e := rfl

@[simp]
theorem exceptMap_error {ε α β : Type} (f : α → β) (e : ε) :
    Except.map f (Except.error e : Except ε α) = .error e := rfl

theorem isErr_eq_true_iff {α : Type} (x : Except String α) :
    isErr x = true ↔ ∃ e, x = .error e := by
  cases x <;> simp [isErr]

theorem symmetryCondition_enum_roundtrip (s : SymmetryCondition) :
    SymmetryCondition.ofString s.toString = .ok s := by
  cases s <;> rfl

/-- `decode ∘ encode = id` for `SpatialVector`. -/
theorem spatialVector_roundtrip (v : SpatialVector) :
    SpatialVector.validate v.ser = .ok v := by
  simp [SpatialVector.ser, SpatialVector.validate, readNumD, jlookup]

theorem mapM_spatial_validate_map_ser (xs : List SpatialVector) :
    (xs.map SpatialVector.ser).mapM SpatialVector.validate = .ok xs :=
  mapM_ok_of_roundtrip _ _ spatialVector_roundtrip xs

theorem mapM_loop_spatial_validate_map_ser (xs acc : List SpatialVector) :
    List.mapM.loop SpatialVector.validate (xs.map SpatialVector.ser) acc =
      .ok (acc.reverse ++ xs) :=
  mapM_loop_ok_of_roundtrip _ _ spatialVector_roundtrip xs acc

/-- The quasi-steady wake settings never round-trip: the embedded
`ViscousCoreLength` encoding has no decoder. -/
theorem quasiSteadyWake_no_roundtrip (w : QuasiSteadyWakeSettings) :
    isErr (QuasiSteadyWakeSettings.validate w.ser) = true := by
  obtain ⟨e, he⟩ := (isErr_eq_true_iff _).mp (viscousCoreLength_no_roundtrip w.viscous_core_length)
  simp [QuasiSteadyWakeSettings.ser, QuasiSteadyWakeSettings.validate, readNumD,
        jlookup, symmetryCondition_enum_roundtrip, he, isErr]

/-- The dynamic wake settings never round-trip, for the same reason. -/
theorem dynamicWake_no_roundtrip (w : DynamicWakeBuilder) :
    isErr (DynamicWakeBuilder.validate w.ser) = true := by
  obtain ⟨e, he⟩ := (isErr_eq_true_iff _).mp (viscousCoreLength_no_roundtrip w.viscous_core_length)
  simp [DynamicWakeBuilder.ser, DynamicWakeBuilder.validate, readNumD, readIntD,
        readBoolD, readStrD, jlookup, symmetryCondition_enum_roundtrip, he,
        isErr, Rat.den_intCast, Rat.num_intCast]

/-- Decoding the encoding of any Simulation-Mode union value fails, through
the wake settings' viscous-core field. -/
theorem simulationMode_no_roundtrip (m : SimulationMode) :
    isErr (SimulationMode.decodeField m.ser) = true := by
  cases m with
  | quasiSteady q =>
      obtain ⟨e, he⟩ := (isErr_eq_true_iff _).mp (quasiSteadyWake_no_roundtrip q.wake)
      cases hs : Solver.decodeField q.solver.ser with
      | error e' =>
          simp [SimulationMode.ser, SimulationMode.decodeField, hasKey, jlookup,
                QuasiSteadySettings.ser, QuasiSteadySettings.validate, hs, isErr]
      | ok s =>
          simp [SimulationMode.ser, SimulationMode.decodeField, hasKey, jlookup,
                QuasiSteadySettings.ser, QuasiSteadySettings.validate, hs, he, isErr]
  | dynamic d =>
      obtain ⟨e, he⟩ := (isErr_eq_true_iff _).mp (dynamicWake_no_roundtrip d.wake)
      cases hs : Solver.decodeField d.solver.ser with
      | error e' =>
          simp [SimulationMode.ser, SimulationMode.decodeField, hasKey, jlookup,
                DynamicSettings.ser, DynamicSettings.validate, hs, isErr]
      | ok s =>
          simp [SimulationMode.ser, SimulationMode.decodeField, hasKey, jlookup,
                DynamicSettings.ser, DynamicSettings.validate, hs, he, isErr]

/-- `add_wing_builder` preserves the lock-step length invariant. -/
theorem add_wing_builder_lockstep (b : LineForceModelBuilder)
    (ws : List WingBuilder)
    (h : b.wing_builders.length = b.local_wing_angles.length) :
    (ws.foldl LineForceModelBuilder.add_wing_builder b).wing_builders.length =
      (ws.foldl LineForceModelBuilder.add_wing_builder b).local_wing_angles.length := by
  induction ws generalizing b with
  | nil => exact h
  | cons w t ih =>
      exact ih _ (by simp [LineForceModelBuilder.add_wing_builder, h])

/-! ### Claim theorems -/

/-- C1, counterexample: the claim fails as stated.  The default
`InputPowerModel` (the `NoPower` unit variant) encodes to the bare string
`"NoPower"`, but decoding that encoding fails — the model defines no
deserialization path.  Likewise the default `ViscousCoreLength` (`Relative`
with value `0.1`) encodes to `{"Relative": 0.1}`, whose decoding fails under
`extra='forbid'`. -/
theorem claim1_counterexample :
    InputPowerModel.ser {} = .ok (.str "NoPower") ∧
    isErr (InputPowerModel.validate (.str "NoPower")) = true ∧
    ViscousCoreLength.ser {} = .obj [("Relative", .num ((1 : Rat) / 10))] ∧
    isErr (ViscousCoreLength.validate
      (.obj [("Relative", .num ((1 : Rat) / 10))])) = true :=
  ⟨rfl, rfl, rfl, rfl⟩

/-- C1, amended: `decode(encode(V)) == V` holds for every variant of the
Section Aerodynamic Model, Circulation Correction, Velocity Correction and
Solver unions (for the latter two, for canonical values whose unit variants
carry no stale payload), including unit variants encoded as bare strings and
the `"None"` disabled sentinel; it fails for every Input Power Model and
Viscous Core Length value (these define serializers but no decoding path),
and consequently for every Simulation Mode value, whose wake settings embed
a Viscous Core Length. -/
theorem claim1_roundtrip_amended :
    (∀ sm : SectionModel, SectionModel.validate sm.ser = .ok sm) ∧
    (∀ cc : CirculationCorrectionBuilder,
       CirculationCorrectionBuilder.validate cc.ser = .ok cc) ∧
    (∀ vc : VelocityCorrections, vc.wf →
       VelocityCorrections.validate vc.ser = .ok vc) ∧
    (∀ s : Solver, s.wf → Solver.decodeField s.ser = .ok s) ∧
    (∀ m : InputPowerModel, ∀ out : Json, m.ser = .ok out →
       isErr (InputPowerModel.validate out) = true) ∧
    (∀ v : ViscousCoreLength, isErr (ViscousCoreLength.validate v.ser) = true) ∧
    (∀ mode : SimulationMode,
       isErr (SimulationMode.decodeField mode.ser) = true) :=
  ⟨sectionModel_roundtrip, circulationCorrection_roundtrip,
   velocityCorrections_roundtrip, solver_roundtrip,
   inputPowerModel_no_roundtrip, viscousCoreLength_no_roundtrip,
   simulationMode_no_roundtrip⟩

/-- C1, witness: the amended round trip evaluated at concrete values — the
payload variant `MaxInducedVelocityMagnitudeRatio(1.0)`, the default
`Linearized` solver, and the `EffectiveWindSensor` unit variant. -/
theorem claim1_witness :
    VelocityCorrections.validate (VelocityCorrections.ser
      { type := .maxInducedVelocityMagnitudeRatio, value := some 1 }) =
      .ok { type := .maxInducedVelocityMagnitudeRatio, value := some 1 } ∧
    Solver.decodeField (Solver.ser (.linearized {})) = .ok (.linearized {}) ∧
    SectionModel.validate (SectionModel.ser { model := .effectiveWindSensor }) =
      .ok { model := .effectiveWindSensor } :=
  ⟨claim1_roundtrip_amended.2.2.1 _ (Or.inl rfl),
   claim1_roundtrip_amended.2.2.2.1 _ (Or.inr rfl),
   claim1_roundtrip_amended.1 _⟩

/-- C2, counterexample: the claim fails as stated.  A `WingBuilder` document
with 2 section points and 3 chord vectors passes validation (no
`SchemaViolation`): the model declares no cross-field length check. -/
theorem claim2_counterexample :
    WingBuilder.validate (.obj
      [("section_points", .arr [.obj [], .obj []]),
       ("chord_vectors", .arr [.obj [], .obj [], .obj []]),
       ("section_model", .str "EffectiveWindSensor")]) =
      .ok { section_points := [{}, {}], chord_vectors := [{}, {}, {}],
            section_model := { model := .effectiveWindSensor } } := rfl

/-- C2, amended: `WingBuilder` performs no geometry-length validation at
all — for any lists of section points and chord vectors (mismatched lengths
and fewer than two points included), validation succeeds. -/
theorem claim2_amended (ps cs : List SpatialVector) :
    WingBuilder.validate (mkWingJson ps cs) =
      .ok { section_points := ps, chord_vectors := cs,
            section_model := { model := .effectiveWindSensor } } := by
  simp [mkWingJson, WingBuilder.validate, WingBuilder.fieldNames, readPointList,
        readOptInt, jlookup, mapM_spatial_validate_map_ser,
        mapM_loop_spatial_validate_map_ser]
  rfl

/-- C3, counterexample: the claim fails as stated.  A raw node carrying the
two known variant keys `Foil` and `VaryingFoil` (each with a decodable
payload) decodes to the `Foil` variant instead of raising
`AmbiguousVariant` — no such error exists in the code. -/
theorem claim3_counterexample :
    SectionModel.validate (.obj
      [("Foil", .obj []),
       ("VaryingFoil", .obj [("internal_state_data", .arr []),
                             ("foils_data", .arr [])])]) =
      .ok { model := .foil {} } := rfl

/-- C3, amended: the union decoders resolve a multi-key node to the first
recognized variant key in their fixed check order (`Foil` before
`VaryingFoil` before `RotatingCylinder`; `Prescribed` before `Smoothing`),
ignoring every other key. -/
theorem claim3_amended :
    (∀ fp : Json, ∀ rest : List (String × Json), hasKey "model" rest = false →
       SectionModel.validate (.obj (("Foil", fp) :: rest)) =
         (Foil.validate fp).map (fun f => { model := .foil f })) ∧
    (∀ pp : Json, ∀ rest : List (String × Json),
       hasKey "correction" rest = false →
       CirculationCorrectionBuilder.validate (.obj (("Prescribed", pp) :: rest)) =
         (PrescribedCirculation.validate pp).map
           (fun p => { correction := some (.prescribed p) })) := by
  constructor
  · intro fp rest h
    simp [hasKey] at h
    simp [SectionModel.validate, hasKey, jlookup, h]
  · intro pp rest h
    simp [hasKey] at h
    simp [CirculationCorrectionBuilder.validate, hasKey, jlookup, h]

/-- C3, witness: the amended first-match rule evaluated on concrete
two-variant-key nodes. -/
theorem claim3_witness :
    SectionModel.validate (.obj [("Foil", .obj []), ("RotatingCylinder", .obj [])]) =
      (Foil.validate (.obj [])).map (fun f => { model := .foil f }) ∧
    CirculationCorrectionBuilder.validate
      (.obj [("Prescribed", .obj []), ("Smoothing", .obj [])]) =
      (PrescribedCirculation.validate (.obj [])).map
        (fun p => { correction := some (.prescribed p) }) :=
  ⟨claim3_amended.1 _ [("RotatingCylinder", .obj [])] rfl,
   claim3_amended.2 _ [("Smoothing", .obj [])] rfl⟩

/-- C4, counterexample: the claim fails as stated.  A spurious sibling key
next to the recognized `MaxInducedVelocityMagnitudeRatio` variant tag is
silently dropped by the `mode='before'` decoder, which rebuilds the field
dict from the tag alone. -/
theorem claim4_counterexample :
    VelocityCorrections.validate (.obj
      [("MaxInducedVelocityMagnitudeRatio", .num 1), ("spurious_key", .num 2)]) =
      .ok { type := .maxInducedVelocityMagnitudeRatio, value := some 1 } := rfl

/-- C4, amended: an unknown key is a hard error at every level validated
directly by a model's declared fields (`extra='forbid'`, shown for `Foil`),
but a spurious sibling key alongside a recognized variant tag in a
union-decoding `mode='before'` validator is silently dropped (shown for
`VelocityCorrections`). -/
theorem claim4_amended :
    (∀ k : String, ∀ v : Json, ∀ rest : List (String × Json),
       Foil.fieldNames.contains k = false →
       isErr (Foil.validate (.obj ((k, v) :: rest))) = true) ∧
    (∀ k : String, ∀ v : Json, ¬ k = "type" → ∀ q : Rat,
       VelocityCorrections.validate (.obj
         [("MaxInducedVelocityMagnitudeRatio", .num q), (k, v)]) =
         .ok { type := .maxInducedVelocityMagnitudeRatio, value := some q }) := by
  constructor
  · intro k v rest h
    have hmem : ¬ k ∈ Foil.fieldNames := by simpa using h
    simp [Foil.validate, hmem, isErr]
  · intro k v hk q
    simp [VelocityCorrections.validate, hasKey, jlookup, hk]

/-- C4, witness: the amended statement evaluated at a concrete unknown key
and a concrete spurious sibling key. -/
theorem claim4_witness :
    isErr (Foil.validate (.obj [("bogus", .num 3)])) = true ∧
    VelocityCorrections.validate (.obj
      [("MaxInducedVelocityMagnitudeRatio", .num 2), ("junk", .null)]) =
      .ok { type := .maxInducedVelocityMagnitudeRatio, value := some 2 } :=
  ⟨claim4_amended.1 "bogus" (.num 3) [] (by decide),
   claim4_amended.2 "junk" .null (by decide) 2⟩

/-- C5: a `CirculationCorrectionBuilder` with no correction serializes to
the literal JSON string `"None"` (not `null`, not an omitted field), and
decoding `"None"` yields the disabled value. -/
theorem claim5_theorem :
    CirculationCorrectionBuilder.ser { correction := none } = .str "None" ∧
    CirculationCorrectionBuilder.validate (.str "None") =
      .ok { correction := none } :=
  ⟨rfl, rfl⟩

/-- C6: for every line-force-model builder satisfying the data-model
lock-step invariant (in particular any default-constructed builder, whose
lists are both empty) and every sequence of `add_wing_builder` calls, the
wing list and the per-wing angle list have equal lengths afterwards. -/
theorem claim6_theorem (b : LineForceModelBuilder) (ws : List WingBuilder)
    (h : b.wing_builders.length = b.local_wing_angles.length) :
    (ws.foldl LineForceModelBuilder.add_wing_builder b).wing_builders.length =
      (ws.foldl LineForceModelBuilder.add_wing_builder b).local_wing_angles.length :=
  add_wing_builder_lockstep b ws h

/-- C6, witness: two `add_wing_builder` calls on the default-constructed
builder. -/
theorem claim6_witness :
    (([wingZero, wingZero]).foldl LineForceModelBuilder.add_wing_builder
        {}).wing_builders.length =
      (([wingZero, wingZero]).foldl LineForceModelBuilder.add_wing_builder
        {}).local_wing_angles.length :=
  claim6_theorem {} [wingZero, wingZero] rfl

/-- C7: encoding `MaxInducedVelocityMagnitudeRatio(1.0)` produces exactly
the single-entry object `{"MaxInducedVelocityMagnitudeRatio": 1.0}`, and
decoding that object yields the same variant with value `1.0`. -/
theorem claim7_theorem :
    VelocityCorrections.ser
      { type := .maxInducedVelocityMagnitudeRatio, value := some 1 } =
      .obj [("MaxInducedVelocityMagnitudeRatio", .num 1)] ∧
    VelocityCorrections.validate
      (.obj [("MaxInducedVelocityMagnitudeRatio", .num 1)]) =
      .ok { type := .maxInducedVelocityMagnitudeRatio, value := some 1 } :=
  ⟨rfl, rfl⟩

/-- C8, counterexample: the claim fails as stated.  A `ControllerLogic`
document selecting `SpinRatio` with no conversion payload passes validation
— the check lives in a field serializer, not in a validator. -/
theorem claim8_counterexample :
    ControllerLogic.validate (.obj
      [("apparent_wind_directions_data", .arr []),
       ("internal_state_type", .str "SpinRatio")]) =
      .ok { apparent_wind_directions_data := [],
            internal_state_type := .spinRatio } := rfl

/-- C8, amended: the `SpinRatio`-without-conversion combination is accepted
by validation and rejected only at serialization time, when the
`internal_state_type` field serializer raises. -/
theorem claim8_amended (l : ControllerLogic)
    (h1 : l.internal_state_type = .spinRatio)
    (h2 : l.internal_state_conversion = none) :
    isErr (ControllerLogic.ser l) = true := by
  simp [ControllerLogic.ser, ControllerLogic.serInternalStateType, h1, h2, isErr]

/-- C8, witness: serialization of the concrete invalid combination fails. -/
theorem claim8_witness :
    isErr (ControllerLogic.ser { apparent_wind_directions_data := [],
                                 internal_state_type := .spinRatio }) = true :=
  claim8_amended _ rfl rfl

/-- C9, counterexample: the claim fails as stated for union-shaped models
with custom serializers: setting the optional `value` field of a
`VelocityCorrections` whose active variant is the `NoCorrection` unit does
not make any key appear — the serialized document is unchanged. -/
theorem claim9_counterexample :
    VelocityCorrections.ser { type := .noCorrection, value := some 5 } =
      VelocityCorrections.ser { type := .noCorrection, value := none } ∧
    VelocityCorrections.ser { type := .noCorrection, value := some 5 } =
      .str "NoCorrection" :=
  ⟨rfl, rfl⟩

/-- C9, amended: sparse emission holds for models serialized by the default
pydantic dump (shown for the cited `Foil` model): with all optional fields
unset the document has no keys, and setting exactly one optional field makes
exactly that key appear.  (Union-shaped models with custom serializers are
exempt, per the counterexample.) -/
theorem claim9_amended :
    Foil.ser {} = .obj [] ∧
    (∀ q : Rat, Foil.ser { cl_zero_angle := some q } =
      .obj [("cl_zero_angle", .num q)]) ∧
    (∀ q : Rat, Foil.ser { cl_initial_slope := some q } =
      .obj [("cl_initial_slope", .num q)]) ∧
    (∀ q : Rat, Foil.ser { cl_high_order_factor_positive := some q } =
      .obj [("cl_high_order_factor_positive", .num q)]) ∧
    (∀ q : Rat, Foil.ser { cl_high_order_factor_negative := some q } =
      .obj [("cl_high_order_factor_negative", .num q)]) ∧
    (∀ q : Rat, Foil.ser { cl_high_order_power := some q } =
      .obj [("cl_high_order_power", .num q)]) ∧
    (∀ q : Rat, Foil.ser { cl_max_after_stall := some q } =
      .obj [("cl_max_after_stall", .num q)]) ∧
    (∀ q : Rat, Foil.ser { cd_min := some q } = .obj [("cd_min", .num q)]) ∧
    (∀ q : Rat, Foil.ser { angle_cd_min := some q } =
      .obj [("angle_cd_min", .num q)]) ∧
    (∀ q : Rat, Foil.ser { cd_second_order_factor := some q } =
      .obj [("cd_second_order_factor", .num q)]) ∧
    (∀ q : Rat, Foil.ser { cd_max_after_stall := some q } =
      .obj [("cd_max_after_stall", .num q)]) ∧
    (∀ q : Rat, Foil.ser { cd_power_after_stall := some q } =
      .obj [("cd_power_after_stall", .num q)]) ∧
    (∀ q : Rat, Foil.ser { cdi_correction_factor := some q } =
      .obj [("cdi_correction_factor", .num q)]) ∧
    (∀ q : Rat, Foil.ser { mean_positive_stall_angle := some q } =
      .obj [("mean_positive_stall_angle", .num q)]) ∧
    (∀ q : Rat, Foil.ser { mean_negative_stall_angle := some q } =
      .obj [("mean_negative_stall_angle", .num q)]) ∧
    (∀ q : Rat, Foil.ser { stall_range := some q } =
      .obj [("stall_range", .num q)]) ∧
    (∀ q : Rat, Foil.ser { cd_stall_angle_offset := some q } =
      .obj [("cd_stall_angle_offset", .num q)]) ∧
    (∀ q : Rat, Foil.ser { cd_bump_during_stall := some q } =
      .obj [("cd_bump_during_stall", .num q)]) ∧
    (∀ q : Rat, Foil.ser { added_mass_factor := some q } =
      .obj [("added_mass_factor", .num q)]) := by
  refine ⟨rfl, ?_, ?_, ?_, ?_, ?_, ?_, ?_, ?_, ?_, ?_, ?_, ?_, ?_, ?_, ?_,
          ?_, ?_, ?_⟩ <;>
    (intro q; simp [Foil.ser, ofield])

/-- C10: constructing `SimpleIterative` without supplying
`max_iterations_per_time_step` or `damping_factor` always fails validation,
and evaluating `DynamicSettings`' declared defaults (whose solver default is
`SimpleIterative()`) therefore fails. -/
theorem claim10_theorem :
    (∀ fs : List (String × Json),
       (jlookup "max_iterations_per_time_step" fs = none ∨
        jlookup "damping_factor" fs = none) →
       isErr (SimpleIterative.validate (.obj fs)) = true) ∧
    isErr DynamicSettings.mkDefault = true := by
  constructor
  · intro fs h
    by_cases hk : allKeysKnown fs SimpleIterative.fieldNames = true
    · rcases h with h | h
      · simp [SimpleIterative.validate, hk, readInt, h, isErr]
      · cases hri : readInt fs "max_iterations_per_time_step" with
        | error e => simp [SimpleIterative.validate, hk, hri, isErr]
        | ok n => simp [SimpleIterative.validate, hk, hri, readNum, h, isErr]
    · simp [SimpleIterative.validate, hk, isErr]
  · rfl

/-- C10, witness: `SimpleIterative()` (no keyword arguments) fails, and so
does the `DynamicSettings` default evaluation. -/
theorem claim10_witness :
    isErr (SimpleIterative.validate (.obj [])) = true ∧
    isErr DynamicSettings.mkDefault = true :=
  ⟨claim10_theorem.1 [] (Or.inl rfl), claim10_theorem.2⟩

end Stormbird
